import Mathlib

/-!
Verification of the go-rest resource-handler dispatch pipeline.

The development embeds, as executable Lean definitions, the two source files of
the repository: the server package request handlers (handleCreate,
handleReadList, handleRead, handleUpdate, handleDelete, sendResponse, and the
server package BaseResourceHandler stubs) and the rest package
(BaseResourceHandler stubs and resourceHandlerProxy). Pieces of the repository
that the claims depend on but that are not among the given sources (the
serializer registry lookup, the error-kind constructors, the Rule type, the
route-parameter key constants, the RequestContext constructor) are modelled
from the specification and are marked as such in their doc comments.
-/

set_option autoImplicit false

namespace GoRest

/-- A JSON value, as produced by the encoding/json decoder. Numbers are
abstracted to integers, which is enough for the claims under study. -/
inductive Json where
  | null
  | bool (b : Bool)
  | num (n : Int)
  | str (s : String)
  | arr (elems : List Json)
  | obj (fields : List (String × Json))

/-- Resource is an opaque domain value; a Go interface value that may be nil. -/
def Resource : Type := Option Json

/-- Payload is the unmarshalled request body: a mapping from string keys to
decoded JSON values. -/
def Payload : Type := List (String × Json)

/-- Modelled from the spec: the error kinds of the pipeline. The constructors
(NotImplemented and friends) live in repository files that are not among the
given sources; the spec section on error handling lists exactly these kinds. -/
inductive Err where
  | notImplemented (msg : String)
  | decodeError (msg : String)
  | unsupportedFormat (format : String)
  | handlerError (msg : String)
deriving DecidableEq

/-- The request body as handed to the json decoder: none when the body is empty
or not syntactically valid JSON, some j when it parses as the JSON value j. -/
def Body : Type := Option Json

/-- The body decode step shared by handleCreate and handleUpdate: a
json.Decoder reads the body into a Go variable of map type with string keys.
Per the documented behaviour of encoding/json, a JSON object decodes into the
map, the JSON literal null decodes successfully and leaves the map nil, and
every other JSON value (array, string, number, boolean) fails with an
unmarshal type error; a syntactically invalid or empty body fails as well. -/
def decodeBody : Body → Except Err Payload
  | none => Except.error (Err.decodeError "invalid JSON body")
  | some Json.null => Except.ok []
  | some (Json.obj fields) => Except.ok fields
  | some (Json.bool _) => Except.error (Err.decodeError "cannot unmarshal bool into map")
  | some (Json.num _) => Except.error (Err.decodeError "cannot unmarshal number into map")
  | some (Json.str _) => Except.error (Err.decodeError "cannot unmarshal string into map")
  | some (Json.arr _) => Except.error (Err.decodeError "cannot unmarshal array into map")

/-- The result slot of a context: empty before any SetResult, a single resource
for create, read, update and delete, a resource list for read-list. -/
inductive ResultV where
  | empty
  | res (r : Resource)
  | resList (rs : List Resource)

/-- An inbound HTTP request, reduced to the values the pipeline reads from it:
the decoded body, the format query parameter (already defaulted to json when
absent), the version and resource id path parameters, and the limit query
parameter. -/
structure Request where
  body : Body
  format : String
  version : String
  resourceId : String
  limit : Int

/-- The immutable per-request context. Field names follow the accessor methods
the source calls on it: Version, Limit, ResourceId, ResponseFormat, Result,
Error, Status, NextURL, plus the cursor recorded by SetCursor. -/
structure RequestContext where
  version : String
  limit : Int
  resourceId : String
  responseFormat : String
  result : ResultV
  cursor : String
  requestError : Option Err
  status : Nat
  nextURL : String

/-- Modelled from the spec: context.NewContext builds a fresh context from the
request, extracting version, resource id, limit and format; the response slots
start out empty. The context package is not among the given sources. -/
def NewContext (r : Request) : RequestContext :=
  { version := r.version
    limit := r.limit
    resourceId := r.resourceId
    responseFormat := r.format
    result := ResultV.empty
    cursor := ""
    requestError := none
    status := 200
    nextURL := "" }

/-- SetResult returns a new context with the result replaced. -/
def RequestContext.SetResult (ctx : RequestContext) (r : ResultV) : RequestContext :=
  { ctx with result := r }

/-- SetCursor returns a new context with the next-page cursor replaced. -/
def RequestContext.SetCursor (ctx : RequestContext) (c : String) : RequestContext :=
  { ctx with cursor := c }

/-- SetError returns a new context with the error replaced. -/
def RequestContext.SetError (ctx : RequestContext) (e : Option Err) : RequestContext :=
  { ctx with requestError := e }

/-- SetStatus returns a new context with the status replaced. -/
def RequestContext.SetStatus (ctx : RequestContext) (s : Nat) : RequestContext :=
  { ctx with status := s }

@[simp] theorem NewContext_version (r : Request) : (NewContext r).version = r.version := rfl

@[simp] theorem NewContext_limit (r : Request) : (NewContext r).limit = r.limit := rfl

@[simp] theorem NewContext_resourceId (r : Request) :
    (NewContext r).resourceId = r.resourceId := rfl

@[simp] theorem NewContext_responseFormat (r : Request) :
    (NewContext r).responseFormat = r.format := rfl

@[simp] theorem NewContext_result (r : Request) : (NewContext r).result = ResultV.empty := rfl

@[simp] theorem NewContext_requestError (r : Request) :
    (NewContext r).requestError = none := rfl

@[simp] theorem NewContext_status (r : Request) : (NewContext r).status = 200 := rfl

@[simp] theorem NewContext_nextURL (r : Request) : (NewContext r).nextURL = "" := rfl

@[simp] theorem SetResult_result (ctx : RequestContext) (v : ResultV) :
    (ctx.SetResult v).result = v := rfl

@[simp] theorem SetResult_status (ctx : RequestContext) (v : ResultV) :
    (ctx.SetResult v).status = ctx.status := rfl

@[simp] theorem SetResult_requestError (ctx : RequestContext) (v : ResultV) :
    (ctx.SetResult v).requestError = ctx.requestError := rfl

@[simp] theorem SetResult_responseFormat (ctx : RequestContext) (v : ResultV) :
    (ctx.SetResult v).responseFormat = ctx.responseFormat := rfl

@[simp] theorem SetResult_nextURL (ctx : RequestContext) (v : ResultV) :
    (ctx.SetResult v).nextURL = ctx.nextURL := rfl

@[simp] theorem SetCursor_cursor (ctx : RequestContext) (c : String) :
    (ctx.SetCursor c).cursor = c := rfl

@[simp] theorem SetCursor_result (ctx : RequestContext) (c : String) :
    (ctx.SetCursor c).result = ctx.result := rfl

@[simp] theorem SetCursor_status (ctx : RequestContext) (c : String) :
    (ctx.SetCursor c).status = ctx.status := rfl

@[simp] theorem SetCursor_requestError (ctx : RequestContext) (c : String) :
    (ctx.SetCursor c).requestError = ctx.requestError := rfl

@[simp] theorem SetCursor_responseFormat (ctx : RequestContext) (c : String) :
    (ctx.SetCursor c).responseFormat = ctx.responseFormat := rfl

@[simp] theorem SetCursor_nextURL (ctx : RequestContext) (c : String) :
    (ctx.SetCursor c).nextURL = ctx.nextURL := rfl

@[simp] theorem SetError_requestError (ctx : RequestContext) (e : Option Err) :
    (ctx.SetError e).requestError = e := rfl

@[simp] theorem SetError_result (ctx : RequestContext) (e : Option Err) :
    (ctx.SetError e).result = ctx.result := rfl

@[simp] theorem SetError_status (ctx : RequestContext) (e : Option Err) :
    (ctx.SetError e).status = ctx.status := rfl

@[simp] theorem SetError_responseFormat (ctx : RequestContext) (e : Option Err) :
    (ctx.SetError e).responseFormat = ctx.responseFormat := rfl

@[simp] theorem SetError_nextURL (ctx : RequestContext) (e : Option Err) :
    (ctx.SetError e).nextURL = ctx.nextURL := rfl

@[simp] theorem SetStatus_status (ctx : RequestContext) (s : Nat) :
    (ctx.SetStatus s).status = s := rfl

@[simp] theorem SetStatus_result (ctx : RequestContext) (s : Nat) :
    (ctx.SetStatus s).result = ctx.result := rfl

@[simp] theorem SetStatus_requestError (ctx : RequestContext) (s : Nat) :
    (ctx.SetStatus s).requestError = ctx.requestError := rfl

@[simp] theorem SetStatus_responseFormat (ctx : RequestContext) (s : Nat) :
    (ctx.SetStatus s).responseFormat = ctx.responseFormat := rfl

@[simp] theorem SetStatus_nextURL (ctx : RequestContext) (s : Nat) :
    (ctx.SetStatus s).nextURL = ctx.nextURL := rfl

/-- The RestApi carried by requestHandler, reduced to what sendResponse
consults: the set of registered serializer format names. -/
structure RestApi where
  serializers : List String
deriving DecidableEq

/-- Modelled from the spec: responseSerializer resolves a serializer by the
requested format name through the registered-format lookup and fails with an
unsupported-format error when no serializer is registered under that name. The
registry code is part of the repository but not among the given sources. A
serializer is represented by its format name. -/
def responseSerializer (api : RestApi) (format : String) : Except Err String :=
  if format ∈ api.serializers then Except.ok format
  else Except.error (Err.unsupportedFormat format)

/-- One write performed on the http.ResponseWriter: either a serialized error
response or a serialized success response, each tagged with the serializer
that produced it and the status it was sent at. -/
inductive Write where
  | errorResponse (serializer : String) (e : Err) (status : Nat)
  | successResponse (serializer : String) (result : ResultV) (nextURL : String) (status : Nat)

/-- True when the write is an error response. -/
def Write.isError : Write → Bool
  | Write.errorResponse _ _ _ => true
  | Write.successResponse _ _ _ _ => false

/-- requestHandler.sendResponse, as the list of writes it performs on the
response writer. Mirrors the source line by line: read status, error and
result from the context; look the serializer up by the requested format,
falling back to the json serializer with status 501 and the lookup error on
failure; if the (possibly replaced) error is non-nil, escalate a status below
400 to 500 and send one error response; otherwise send one success response
with the next URL at the recorded status. -/
def sendResponse (api : RestApi) (ctx : RequestContext) : List Write :=
  let status := ctx.status
  let requestError := ctx.requestError
  let result := ctx.result
  let lookup := responseSerializer api ctx.responseFormat
  let serializer := match lookup with
    | Except.ok s => s
    | Except.error _ => "json"
  let status := match lookup with
    | Except.ok _ => status
    | Except.error _ => 501
  let requestError := match lookup with
    | Except.ok _ => requestError
    | Except.error e => some e
  match requestError with
  | some e =>
      let status := if status < 400 then 500 else status
      [Write.errorResponse serializer e status]
  | none =>
      [Write.successResponse serializer result ctx.nextURL status]

/-- The body of the HandlerFunc returned by requestHandler.handleCreate, up to
the call to sendResponse: build the context, decode the body, on failure set
the decode error and status 500, on success invoke createFunc, record the
resource, set status 201 and record the error only when non-nil. Returns the
finished context together with whether createFunc was invoked. -/
def handleCreate (createFunc : RequestContext → Payload → String → Resource × Option Err)
    (r : Request) : RequestContext × Bool :=
  let ctx := NewContext r
  match decodeBody r.body with
  | Except.error err =>
      let ctx := ctx.SetError (some err)
      let ctx := ctx.SetStatus 500
      (ctx, false)
  | Except.ok data =>
      let (resource, err) := createFunc ctx data ctx.version
      let ctx := ctx.SetResult (ResultV.res resource)
      let ctx := ctx.SetStatus 201
      let ctx := if err.isSome then ctx.SetError err else ctx
      (ctx, true)

/-- The body of the HandlerFunc returned by requestHandler.handleReadList, up
to the call to sendResponse. -/
def handleReadList
    (readFunc : RequestContext → Int → String → List Resource × String × Option Err)
    (r : Request) : RequestContext × Bool :=
  let ctx := NewContext r
  let (resources, cursor, err) := readFunc ctx ctx.limit ctx.version
  let ctx := ctx.SetResult (ResultV.resList resources)
  let ctx := ctx.SetCursor cursor
  let ctx := ctx.SetError err
  let ctx := ctx.SetStatus 200
  (ctx, true)

/-- The body of the HandlerFunc returned by requestHandler.handleRead, up to
the call to sendResponse. -/
def handleRead (readFunc : RequestContext → String → String → Resource × Option Err)
    (r : Request) : RequestContext × Bool :=
  let ctx := NewContext r
  let (resource, err) := readFunc ctx ctx.resourceId ctx.version
  let ctx := ctx.SetResult (ResultV.res resource)
  let ctx := ctx.SetError err
  let ctx := ctx.SetStatus 200
  (ctx, true)

/-- The body of the HandlerFunc returned by requestHandler.handleUpdate, up to
the call to sendResponse: decode the body, on failure set the decode error and
status 500, on success invoke updateFunc with the resource id, record the
resource, record the error unconditionally and set status 200. -/
def handleUpdate
    (updateFunc : RequestContext → String → Payload → String → Resource × Option Err)
    (r : Request) : RequestContext × Bool :=
  let ctx := NewContext r
  match decodeBody r.body with
  | Except.error err =>
      let ctx := ctx.SetError (some err)
      let ctx := ctx.SetStatus 500
      (ctx, false)
  | Except.ok data =>
      let (resource, err) := updateFunc ctx ctx.resourceId data ctx.version
      let ctx := ctx.SetResult (ResultV.res resource)
      let ctx := ctx.SetError err
      let ctx := ctx.SetStatus 200
      (ctx, true)

/-- The body of the HandlerFunc returned by requestHandler.handleDelete, up to
the call to sendResponse. -/
def handleDelete (deleteFunc : RequestContext → String → String → Resource × Option Err)
    (r : Request) : RequestContext × Bool :=
  let ctx := NewContext r
  let (resource, err) := deleteFunc ctx ctx.resourceId ctx.version
  let ctx := ctx.SetResult (ResultV.res resource)
  let ctx := ctx.SetError err
  let ctx := ctx.SetStatus 200
  (ctx, true)

/-- The full create endpoint: the handleCreate HandlerFunc ends by passing its
finished context to sendResponse. -/
def createEndpoint (api : RestApi)
    (createFunc : RequestContext → Payload → String → Resource × Option Err)
    (r : Request) : List Write :=
  sendResponse api (handleCreate createFunc r).1

/-- The outcome of calling a Go function that may panic: either a runtime
panic carrying the panic message, or a normal return value. -/
inductive StubOutcome (α : Type) where
  | panicked (msg : String)
  | value (v : α)
deriving DecidableEq

/-- The server package BaseResourceHandler CreateResource stub: it panics. -/
def ServerBase.CreateResource (_ctx : RequestContext) (_data : Payload)
    (_version : String) : StubOutcome (Resource × Option Err) :=
  StubOutcome.panicked "CreateResource not implemented"

/-- The server package BaseResourceHandler ReadResourceList stub: it panics. -/
def ServerBase.ReadResourceList (_ctx : RequestContext) (_limit : Int)
    (_version : String) : StubOutcome (List Resource × String × Option Err) :=
  StubOutcome.panicked "ReadResourceList not implemented"

/-- The server package BaseResourceHandler ReadResource stub: it panics. -/
def ServerBase.ReadResource (_ctx : RequestContext) (_id : String)
    (_version : String) : StubOutcome (Resource × Option Err) :=
  StubOutcome.panicked "ReadResource not implemented"

/-- The server package BaseResourceHandler UpdateResource stub: it panics. -/
def ServerBase.UpdateResource (_ctx : RequestContext) (_id : String) (_data : Payload)
    (_version : String) : StubOutcome (Resource × Option Err) :=
  StubOutcome.panicked "UpdateResource not implemented"

/-- The server package BaseResourceHandler DeleteResource stub: it panics. -/
def ServerBase.DeleteResource (_ctx : RequestContext) (_id : String)
    (_version : String) : StubOutcome (Resource × Option Err) :=
  StubOutcome.panicked "DeleteResource not implemented"

/-- The server package BaseResourceHandler ResourceName stub: it panics. -/
def ServerBase.ResourceName : StubOutcome String :=
  StubOutcome.panicked "ResourceName not implemented"

/-- The rest package BaseResourceHandler ResourceName stub returns the empty
string. -/
def RestBase.ResourceName : String := ""

/-- The rest package BaseResourceHandler CreateResource stub returns a
NotImplemented error, without panicking. -/
def RestBase.CreateResource (_ctx : RequestContext) (_data : Payload)
    (_version : String) : StubOutcome (Resource × Option Err) :=
  StubOutcome.value (none, some (Err.notImplemented "CreateResource is not implemented"))

/-- The rest package BaseResourceHandler ReadResourceList stub returns a
NotImplemented error, without panicking. -/
def RestBase.ReadResourceList (_ctx : RequestContext) (_limit : Int) (_cursor : String)
    (_version : String) : StubOutcome (List Resource × String × Option Err) :=
  StubOutcome.value ([], "", some (Err.notImplemented "ReadResourceList not implemented"))

/-- The rest package BaseResourceHandler ReadResource stub returns a
NotImplemented error, without panicking. -/
def RestBase.ReadResource (_ctx : RequestContext) (_id : String)
    (_version : String) : StubOutcome (Resource × Option Err) :=
  StubOutcome.value (none, some (Err.notImplemented "ReadResource not implemented"))

/-- The rest package BaseResourceHandler UpdateResource stub returns a
NotImplemented error, without panicking. -/
def RestBase.UpdateResource (_ctx : RequestContext) (_id : String) (_data : Payload)
    (_version : String) : StubOutcome (Resource × Option Err) :=
  StubOutcome.value (none, some (Err.notImplemented "UpdateResource not implemented"))

/-- The rest package BaseResourceHandler DeleteResource stub returns a
NotImplemented error, without panicking. -/
def RestBase.DeleteResource (_ctx : RequestContext) (_id : String)
    (_version : String) : StubOutcome (Resource × Option Err) :=
  StubOutcome.value (none, some (Err.notImplemented "DeleteResource not implemented"))

/-- Modelled from the spec: the route-parameter key constants of the rest
package, versionKey and resourceIDKey, are declared in a file that is not
among the given sources; their values are fixed by the documented default URI
templates, which name the placeholders version and resource_id. -/
def versionKey : String := "version"

/-- Modelled from the spec: see versionKey. -/
def resourceIDKey : String := "resource_id"

/-- A dynamically typed Go value abstracted to the name of its static type;
used to model the value returned by EmptyResource and its inspection through
reflect.TypeOf. -/
structure GoValue where
  typeName : String
deriving DecidableEq

/-- reflect.TypeOf applied to a possibly nil interface value: nil yields the
nil type, a non-nil value yields its static type. -/
def reflectTypeOf : Option GoValue → Option String
  | none => none
  | some v => some v.typeName

/-- Modelled from the spec: a Rule is an opaque predicate or transform carrying
a resourceType tag naming the resource type it is bound to; the Rule type is
declared in a file that is not among the given sources and the pipeline treats
everything but the tag as opaque. -/
structure Rule where
  name : String
  resourceType : Option String
deriving DecidableEq

/-- A concrete ResourceHandler as seen by the proxy: the return values of the
wrapped methods the proxy consults. -/
structure ResourceHandlerImpl where
  resourceName : String
  createURI : String
  readURI : String
  readListURI : String
  updateURI : String
  deleteURI : String
  emptyResource : Option GoValue
  rules : List Rule
deriving DecidableEq

/-- resourceHandlerProxy.ResourceName: delegates to the wrapped handler and
panics when the returned name is empty. The panic is modelled as the error
branch of Except. -/
def proxyResourceName (h : ResourceHandlerImpl) : Except String String :=
  let name := h.resourceName
  if name = "" then Except.error "ResourceHandler must implement ResourceName()"
  else Except.ok name

/-- resourceHandlerProxy.Rules: delegates to the wrapped handler and stamps
every returned rule with the type of the value returned by EmptyResource. The
Rules and Rule types are not among the given sources, so the stamping loop is
modelled from the spec, which states that every returned rule carries the
resource type tag. -/
def proxyRules (h : ResourceHandlerImpl) : List Rule :=
  h.rules.map (fun rule => { rule with resourceType := reflectTypeOf h.emptyResource })

/-- Modelled from the spec: registration rejects, as a configuration error, a
handler declaring non-empty Rules while EmptyResource returns nil; the
registration code performing this check is not among the given sources. -/
def rulesConfigCheck (h : ResourceHandlerImpl) : Except String Unit :=
  if h.rules ≠ [] ∧ h.emptyResource = none then
    Except.error "Rules declared without an EmptyResource value"
  else Except.ok ()

/-- resourceHandlerProxy.CreateURI: the wrapped URI when non-empty, otherwise
the plural default built from the proxy ResourceName (which panics on an empty
name). -/
def proxyCreateURI (h : ResourceHandlerImpl) : Except String String :=
  let url := h.createURI
  if url = "" then
    (proxyResourceName h).map
      (fun name => "/api/v\x7b" ++ versionKey ++ ":[^/]+\x7d/" ++ name)
  else Except.ok url

/-- resourceHandlerProxy.ReadURI: the wrapped URI when non-empty, otherwise the
singular default built from the proxy ResourceName (which panics on an empty
name). -/
def proxyReadURI (h : ResourceHandlerImpl) : Except String String :=
  let url := h.readURI
  if url = "" then
    (proxyResourceName h).map
      (fun name => "/api/v\x7b" ++ versionKey ++ ":[^/]+\x7d/" ++ name
        ++ "/\x7b" ++ resourceIDKey ++ "\x7d")
  else Except.ok url

/-- resourceHandlerProxy.ReadListURI: the wrapped URI when non-empty, otherwise
the plural default built from the proxy ResourceName (which panics on an empty
name). -/
def proxyReadListURI (h : ResourceHandlerImpl) : Except String String :=
  let url := h.readListURI
  if url = "" then
    (proxyResourceName h).map
      (fun name => "/api/v\x7b" ++ versionKey ++ ":[^/]+\x7d/" ++ name)
  else Except.ok url

/-- resourceHandlerProxy.UpdateURI: the wrapped URI when non-empty, otherwise
the singular default built from the proxy ResourceName (which panics on an
empty name). -/
def proxyUpdateURI (h : ResourceHandlerImpl) : Except String String :=
  let url := h.updateURI
  if url = "" then
    (proxyResourceName h).map
      (fun name => "/api/v\x7b" ++ versionKey ++ ":[^/]+\x7d/" ++ name
        ++ "/\x7b" ++ resourceIDKey ++ "\x7d")
  else Except.ok url

/-- resourceHandlerProxy.DeleteURI: the wrapped URI when non-empty, otherwise
the singular default. Unlike the other four getters, the source builds the
default from the WRAPPED ResourceName, read directly off the handler, so no
empty-name panic happens here. -/
def proxyDeleteURI (h : ResourceHandlerImpl) : Except String String :=
  let url := h.deleteURI
  if url = "" then
    Except.ok ("/api/v\x7b" ++ versionKey ++ ":[^/]+\x7d/" ++ h.resourceName
      ++ "/\x7b" ++ resourceIDKey ++ "\x7d")
  else Except.ok url

/-- A concrete context used to instantiate universally quantified theorems: a
finished create context carrying a handler error alongside the 201 default. -/
def ctxErr201 : RequestContext :=
  { version := "1"
    limit := 0
    resourceId := ""
    responseFormat := "json"
    result := ResultV.res none
    cursor := ""
    requestError := some (Err.handlerError "boom")
    status := 201
    nextURL := "" }

/-- A concrete request with a JSON object body, format json. -/
def objRequest : Request :=
  { body := some (Json.obj [("name", Json.str "foo")])
    format := "json"
    version := "1"
    resourceId := "42"
    limit := 0 }

/-- Claim C9: response dispatch performs exactly one write, an error response
exactly when the requested format is unregistered or the context error is
non-nil, and a success response otherwise; never both and never neither. -/
theorem dispatch_exactly_one_write (api : RestApi) (ctx : RequestContext) :
    ∃ w : Write, sendResponse api ctx = [w] ∧
      (w.isError = true ↔
        (ctx.responseFormat ∉ api.serializers ∨ ctx.requestError ≠ none)) := by
  by_cases hf : ctx.responseFormat ∈ api.serializers
  · cases he : ctx.requestError with
    | none =>
        refine ⟨Write.successResponse ctx.responseFormat ctx.result ctx.nextURL ctx.status,
          ?_, ?_⟩
        · simp [sendResponse, responseSerializer, hf, he]
        · simp [Write.isError, hf, he]
    | some e =>
        refine ⟨Write.errorResponse ctx.responseFormat e
          (if ctx.status < 400 then 500 else ctx.status), ?_, ?_⟩
        · simp [sendResponse, responseSerializer, hf, he]
        · simp [Write.isError, he]
  · refine ⟨Write.errorResponse "json" (Err.unsupportedFormat ctx.responseFormat) 501,
      ?_, ?_⟩
    · simp [sendResponse, responseSerializer, hf]
    · simp [Write.isError, hf]

/-- Claim C3: when the requested format has no registered serializer, dispatch
falls back to the json serializer and emits one error response at status 501
carrying the unsupported-format error, regardless of the previously recorded
result, error and status. -/
theorem unsupported_format_fallback (api : RestApi) (ctx : RequestContext)
    (hf : ctx.responseFormat ∉ api.serializers) :
    sendResponse api ctx =
      [Write.errorResponse "json" (Err.unsupportedFormat ctx.responseFormat) 501] := by
  simp [sendResponse, responseSerializer, hf]

/-- Witness for unsupported_format_fallback: a context requesting xml when only
json is registered, despite a recorded success status 200 and no error. -/
theorem unsupported_format_fallback_witness :
    sendResponse { serializers := ["json"] }
        { ctxErr201 with responseFormat := "xml", requestError := none, status := 200 } =
      [Write.errorResponse "json" (Err.unsupportedFormat "xml") 501] :=
  unsupported_format_fallback { serializers := ["json"] }
    { ctxErr201 with responseFormat := "xml", requestError := none, status := 200 }
    (by simp [ctxErr201])

/-- Claim C1: when the context reaching dispatch carries a non-nil error and
its format is registered (so no fallback replacement happens), dispatch emits
exactly one error response, escalating any status below 400 to 500; in
particular a create operation returning no resource and an error ends in one
error response at 500, not a 201 success. -/
theorem dispatch_escalates_error_status :
    (∀ (api : RestApi) (ctx : RequestContext) (e : Err),
        ctx.responseFormat ∈ api.serializers → ctx.requestError = some e →
        sendResponse api ctx =
          [Write.errorResponse ctx.responseFormat e
            (if ctx.status < 400 then 500 else ctx.status)]) ∧
    (∀ (api : RestApi) (r : Request) (e : Err) (d : Payload),
        r.format ∈ api.serializers → decodeBody r.body = Except.ok d →
        createEndpoint api (fun _ _ _ => (none, some e)) r =
          [Write.errorResponse r.format e 500]) := by
  constructor
  · intro api ctx e hf he
    simp [sendResponse, responseSerializer, hf, he]
  · intro api r e d hf hd
    simp [createEndpoint, handleCreate, hd, sendResponse, responseSerializer,
      RequestContext.SetResult, RequestContext.SetStatus, RequestContext.SetError,
      NewContext, hf]

/-- Witness for dispatch_escalates_error_status: a create context carrying a
handler error with status 201 dispatches as an error at 500, and the full
create endpoint with a failing operation on a decodable body yields one error
response at 500. -/
theorem dispatch_escalates_error_status_witness :
    sendResponse { serializers := ["json"] } ctxErr201 =
      [Write.errorResponse "json" (Err.handlerError "boom") 500] ∧
    createEndpoint { serializers := ["json"] }
        (fun _ _ _ => (none, some (Err.handlerError "boom"))) objRequest =
      [Write.errorResponse "json" (Err.handlerError "boom") 500] := by
  constructor
  · have h := dispatch_escalates_error_status.1 { serializers := ["json"] } ctxErr201
      (Err.handlerError "boom") (by simp [ctxErr201]) rfl
    simpa [ctxErr201] using h
  · exact dispatch_escalates_error_status.2 { serializers := ["json"] } objRequest
      (Err.handlerError "boom") [("name", Json.str "foo")] (by simp [objRequest]) rfl

/-- Claim C2: whenever the body decode succeeds (create, update) or the verb
reads no body (read, read-list, delete), the verb handler assigns the default
success status, 201 for create and 200 otherwise, and it does so regardless of
the invoked operation result: the operation error is recorded next to the
success status, so the finished context can carry both at once. -/
theorem handlers_assign_default_status :
    (∀ (createFunc : RequestContext → Payload → String → Resource × Option Err)
        (r : Request) (d : Payload), decodeBody r.body = Except.ok d →
        (handleCreate createFunc r).1.status = 201 ∧
        (handleCreate createFunc r).1.requestError =
          (createFunc (NewContext r) d r.version).2) ∧
    (∀ (updateFunc : RequestContext → String → Payload → String → Resource × Option Err)
        (r : Request) (d : Payload), decodeBody r.body = Except.ok d →
        (handleUpdate updateFunc r).1.status = 200 ∧
        (handleUpdate updateFunc r).1.requestError =
          (updateFunc (NewContext r) r.resourceId d r.version).2) ∧
    (∀ (readFunc : RequestContext → String → String → Resource × Option Err)
        (r : Request),
        (handleRead readFunc r).1.status = 200 ∧
        (handleRead readFunc r).1.requestError =
          (readFunc (NewContext r) r.resourceId r.version).2) ∧
    (∀ (readListFunc : RequestContext → Int → String → List Resource × String × Option Err)
        (r : Request),
        (handleReadList readListFunc r).1.status = 200 ∧
        (handleReadList readListFunc r).1.requestError =
          (readListFunc (NewContext r) r.limit r.version).2.2) ∧
    (∀ (deleteFunc : RequestContext → String → String → Resource × Option Err)
        (r : Request),
        (handleDelete deleteFunc r).1.status = 200 ∧
        (handleDelete deleteFunc r).1.requestError =
          (deleteFunc (NewContext r) r.resourceId r.version).2) := by
  refine ⟨?_, ?_, ?_, ?_, ?_⟩
  · intro createFunc r d hd
    cases he : (createFunc (NewContext r) d r.version).2 with
    | none => simp [handleCreate, hd, he]
    | some e => simp [handleCreate, hd, he]
  · intro updateFunc r d hd
    simp [handleUpdate, hd]
  · intro readFunc r
    simp [handleRead]
  · intro readListFunc r
    simp [handleReadList]
  · intro deleteFunc r
    simp [handleDelete]

/-- Witness for handlers_assign_default_status: on a concrete object body, a
create operation that fails still leaves status 201 next to its error, and a
failing delete leaves status 200 next to its error. -/
theorem handlers_assign_default_status_witness :
    ((handleCreate (fun _ _ _ => (none, some (Err.handlerError "boom"))) objRequest).1.status
        = 201 ∧
      (handleCreate (fun _ _ _ => (none, some (Err.handlerError "boom"))) objRequest).1.requestError
        = some (Err.handlerError "boom")) ∧
    ((handleDelete (fun _ _ _ => (none, some (Err.handlerError "boom"))) objRequest).1.status
        = 200 ∧
      (handleDelete (fun _ _ _ => (none, some (Err.handlerError "boom"))) objRequest).1.requestError
        = some (Err.handlerError "boom")) := by
  constructor
  · exact handlers_assign_default_status.1
      (fun _ _ _ => (none, some (Err.handlerError "boom"))) objRequest
      [("name", Json.str "foo")] rfl
  · exact handlers_assign_default_status.2.2.2.2
      (fun _ _ _ => (none, some (Err.handlerError "boom"))) objRequest

/-- Claim C4: when the body of a create or update request fails to decode as a
string-keyed mapping, the context error is the decode error, the context
status is 500, and the operation function is not invoked. -/
theorem decode_failure_skips_operation :
    (∀ (createFunc : RequestContext → Payload → String → Resource × Option Err)
        (r : Request) (e : Err), decodeBody r.body = Except.error e →
        (handleCreate createFunc r).1.requestError = some e ∧
        (handleCreate createFunc r).1.status = 500 ∧
        (handleCreate createFunc r).2 = false) ∧
    (∀ (updateFunc : RequestContext → String → Payload → String → Resource × Option Err)
        (r : Request) (e : Err), decodeBody r.body = Except.error e →
        (handleUpdate updateFunc r).1.requestError = some e ∧
        (handleUpdate updateFunc r).1.status = 500 ∧
        (handleUpdate updateFunc r).2 = false) := by
  constructor
  · intro createFunc r e hd
    simp [handleCreate, hd]
  · intro updateFunc r e hd
    simp [handleUpdate, hd]

/-- Witness for decode_failure_skips_operation: a request whose body is not
valid JSON gets the decode error at status 500 and never invokes the create
operation. -/
theorem decode_failure_skips_operation_witness :
    (handleCreate (fun _ _ _ => (none, none)) { objRequest with body := none }).1.requestError
      = some (Err.decodeError "invalid JSON body") ∧
    (handleCreate (fun _ _ _ => (none, none)) { objRequest with body := none }).1.status = 500 ∧
    (handleCreate (fun _ _ _ => (none, none)) { objRequest with body := none }).2 = false :=
  decode_failure_skips_operation.1 (fun _ _ _ => (none, none))
    { objRequest with body := none } (Err.decodeError "invalid JSON body") rfl

/-- True when the JSON value is an object. -/
def Json.isObj : Json → Bool
  | Json.obj _ => true
  | _ => false

/-- True when the JSON value is the literal null. -/
def Json.isNull : Json → Bool
  | Json.null => true
  | _ => false

/-- Counterexample for claim C10: the body consisting of the JSON literal
null is syntactically valid JSON and not a JSON object, yet it decodes
successfully into a nil map, so the create and update operations ARE invoked,
no error is recorded, and create finishes at status 201. -/
theorem null_body_reaches_operation :
    decodeBody (some Json.null) = Except.ok [] ∧
    (handleCreate (fun _ _ _ => (none, none))
        { objRequest with body := some Json.null }).2 = true ∧
    (handleCreate (fun _ _ _ => (none, none))
        { objRequest with body := some Json.null }).1.requestError = none ∧
    (handleCreate (fun _ _ _ => (none, none))
        { objRequest with body := some Json.null }).1.status = 201 ∧
    (handleUpdate (fun _ _ _ _ => (none, none))
        { objRequest with body := some Json.null }).2 = true := by
  refine ⟨rfl, rfl, ?_, rfl, rfl⟩
  simp [handleCreate, objRequest, decodeBody]

/-- Claim C10 as amended: a create or update body that is syntactically valid
JSON but neither a JSON object nor the literal null takes the same path as a
malformed body: the context error is the decode error, the status is 500, and
the operation is never invoked; the literal null, however, decodes
successfully into a nil map and the operation is invoked. The object-shape
requirement is enforced only by the decode into a string-keyed map; there is
no separate check. -/
theorem non_object_body_same_as_malformed :
    (∀ (createFunc : RequestContext → Payload → String → Resource × Option Err)
        (updateFunc : RequestContext → String → Payload → String → Resource × Option Err)
        (r : Request) (j : Json), r.body = some j →
        j.isObj = false → j.isNull = false →
        ∃ e : Err, decodeBody r.body = Except.error e ∧
          (handleCreate createFunc r).1.requestError = some e ∧
          (handleCreate createFunc r).1.status = 500 ∧
          (handleCreate createFunc r).2 = false ∧
          (handleUpdate updateFunc r).1.requestError = some e ∧
          (handleUpdate updateFunc r).1.status = 500 ∧
          (handleUpdate updateFunc r).2 = false) ∧
    (∀ (createFunc : RequestContext → Payload → String → Resource × Option Err)
        (updateFunc : RequestContext → String → Payload → String → Resource × Option Err)
        (r : Request), r.body = some Json.null →
        (handleCreate createFunc r).2 = true ∧ (handleUpdate updateFunc r).2 = true) := by
  constructor
  · intro createFunc updateFunc r j hb hobj hnull
    have hd : ∃ e : Err, decodeBody r.body = Except.error e := by
      rw [hb]
      cases j with
      | null => simp [Json.isNull] at hnull
      | obj fields => simp [Json.isObj] at hobj
      | bool b => exact ⟨_, rfl⟩
      | num n => exact ⟨_, rfl⟩
      | str s => exact ⟨_, rfl⟩
      | arr elems => exact ⟨_, rfl⟩
    obtain ⟨e, he⟩ := hd
    exact ⟨e, he, by simp [handleCreate, he], by simp [handleCreate, he],
      by simp [handleCreate, he], by simp [handleUpdate, he],
      by simp [handleUpdate, he], by simp [handleUpdate, he]⟩
  · intro createFunc updateFunc r hb
    constructor
    · simp [handleCreate, hb, decodeBody]
    · simp [handleUpdate, hb, decodeBody]

/-- Witness for non_object_body_same_as_malformed: an array body takes the
500 decode-error path without invoking the operation, while a null body
reaches the operation. -/
theorem non_object_body_same_as_malformed_witness :
    (∃ e : Err, decodeBody (some (Json.arr [])) = Except.error e ∧
      (handleCreate (fun _ _ _ => (none, none))
          { objRequest with body := some (Json.arr []) }).1.requestError = some e ∧
      (handleCreate (fun _ _ _ => (none, none))
          { objRequest with body := some (Json.arr []) }).1.status = 500 ∧
      (handleCreate (fun _ _ _ => (none, none))
          { objRequest with body := some (Json.arr []) }).2 = false ∧
      (handleUpdate (fun _ _ _ _ => (none, none))
          { objRequest with body := some (Json.arr []) }).1.requestError = some e ∧
      (handleUpdate (fun _ _ _ _ => (none, none))
          { objRequest with body := some (Json.arr []) }).1.status = 500 ∧
      (handleUpdate (fun _ _ _ _ => (none, none))
          { objRequest with body := some (Json.arr []) }).2 = false) ∧
    (handleCreate (fun _ _ _ => (none, none))
        { objRequest with body := some Json.null }).2 = true := by
  constructor
  · exact non_object_body_same_as_malformed.1 (fun _ _ _ => (none, none))
      (fun _ _ _ _ => (none, none)) { objRequest with body := some (Json.arr []) }
      (Json.arr []) rfl rfl rfl
  · exact (non_object_body_same_as_malformed.2 (fun _ _ _ => (none, none))
      (fun _ _ _ _ => (none, none)) { objRequest with body := some Json.null } rfl).1

/-- A concrete handler leaving every URI getter unset, with resource name
widgets, one rule and a representative empty resource of type Widget. -/
def widgetsHandler : ResourceHandlerImpl :=
  { resourceName := "widgets"
    createURI := ""
    readURI := ""
    readListURI := ""
    updateURI := ""
    deleteURI := ""
    emptyResource := some { typeName := "Widget" }
    rules := [{ name := "r1", resourceType := none }] }

/-- Claim C5: each proxy URI getter returns the wrapped handler URI exactly
when it is non-empty, and otherwise the convention default built from the
resource name: the plural form for create and read-list, the singular form
for read, update and delete. -/
theorem proxy_uri_defaulting (h : ResourceHandlerImpl) (hn : h.resourceName ≠ "") :
    (h.createURI ≠ "" → proxyCreateURI h = Except.ok h.createURI) ∧
    (h.createURI = "" → proxyCreateURI h =
      Except.ok ("/api/v\x7b" ++ versionKey ++ ":[^/]+\x7d/" ++ h.resourceName)) ∧
    (h.readURI ≠ "" → proxyReadURI h = Except.ok h.readURI) ∧
    (h.readURI = "" → proxyReadURI h =
      Except.ok ("/api/v\x7b" ++ versionKey ++ ":[^/]+\x7d/" ++ h.resourceName
        ++ "/\x7b" ++ resourceIDKey ++ "\x7d")) ∧
    (h.readListURI ≠ "" → proxyReadListURI h = Except.ok h.readListURI) ∧
    (h.readListURI = "" → proxyReadListURI h =
      Except.ok ("/api/v\x7b" ++ versionKey ++ ":[^/]+\x7d/" ++ h.resourceName)) ∧
    (h.updateURI ≠ "" → proxyUpdateURI h = Except.ok h.updateURI) ∧
    (h.updateURI = "" → proxyUpdateURI h =
      Except.ok ("/api/v\x7b" ++ versionKey ++ ":[^/]+\x7d/" ++ h.resourceName
        ++ "/\x7b" ++ resourceIDKey ++ "\x7d")) ∧
    (h.deleteURI ≠ "" → proxyDeleteURI h = Except.ok h.deleteURI) ∧
    (h.deleteURI = "" → proxyDeleteURI h =
      Except.ok ("/api/v\x7b" ++ versionKey ++ ":[^/]+\x7d/" ++ h.resourceName
        ++ "/\x7b" ++ resourceIDKey ++ "\x7d")) := by
  refine ⟨?_, ?_, ?_, ?_, ?_, ?_, ?_, ?_, ?_, ?_⟩ <;> intro hu
  · simp [proxyCreateURI, hu]
  · simp [proxyCreateURI, proxyResourceName, hu, hn, Except.map]
  · simp [proxyReadURI, hu]
  · simp [proxyReadURI, proxyResourceName, hu, hn, Except.map]
  · simp [proxyReadListURI, hu]
  · simp [proxyReadListURI, proxyResourceName, hu, hn, Except.map]
  · simp [proxyUpdateURI, hu]
  · simp [proxyUpdateURI, proxyResourceName, hu, hn, Except.map]
  · simp [proxyDeleteURI, hu]
  · simp [proxyDeleteURI, hu]

/-- Witness for proxy_uri_defaulting: the widgets handler with every getter
unset gets the documented convention routes, and setting a create URI
explicitly returns that exact string. -/
theorem proxy_uri_defaulting_witness :
    proxyCreateURI widgetsHandler = Except.ok "/api/v\x7bversion:[^/]+\x7d/widgets" ∧
    proxyReadURI widgetsHandler =
      Except.ok "/api/v\x7bversion:[^/]+\x7d/widgets/\x7bresource_id\x7d" ∧
    proxyReadListURI widgetsHandler = Except.ok "/api/v\x7bversion:[^/]+\x7d/widgets" ∧
    proxyUpdateURI widgetsHandler =
      Except.ok "/api/v\x7bversion:[^/]+\x7d/widgets/\x7bresource_id\x7d" ∧
    proxyDeleteURI widgetsHandler =
      Except.ok "/api/v\x7bversion:[^/]+\x7d/widgets/\x7bresource_id\x7d" ∧
    proxyCreateURI { widgetsHandler with createURI := "/custom/widgets" } =
      Except.ok "/custom/widgets" := by
  have h := proxy_uri_defaulting widgetsHandler (by simp [widgetsHandler])
  have hc := proxy_uri_defaulting { widgetsHandler with createURI := "/custom/widgets" }
    (by simp [widgetsHandler])
  exact ⟨h.2.1 rfl, h.2.2.2.1 rfl, h.2.2.2.2.2.1 rfl, h.2.2.2.2.2.2.2.1 rfl,
    h.2.2.2.2.2.2.2.2.2 rfl, hc.1 (by simp [widgetsHandler])⟩

/-- A handler whose ResourceName returns the empty string and whose URI
getters are all unset. -/
def namelessHandler : ResourceHandlerImpl :=
  { resourceName := ""
    createURI := ""
    readURI := ""
    readListURI := ""
    updateURI := ""
    deleteURI := ""
    emptyResource := none
    rules := [] }

/-- Divergence witness for claim C6: on a handler whose resource name is empty
and whose URI getters are all unset, the proxy getters for create, read,
read-list and update do fail with the configuration panic, but DeleteURI reads
the resource name directly off the wrapped handler, bypassing the check, and
silently returns a route whose resource-name segment is empty. -/
theorem deleteURI_silent_empty_route :
    proxyCreateURI namelessHandler =
      Except.error "ResourceHandler must implement ResourceName()" ∧
    proxyReadURI namelessHandler =
      Except.error "ResourceHandler must implement ResourceName()" ∧
    proxyReadListURI namelessHandler =
      Except.error "ResourceHandler must implement ResourceName()" ∧
    proxyUpdateURI namelessHandler =
      Except.error "ResourceHandler must implement ResourceName()" ∧
    proxyDeleteURI namelessHandler =
      Except.ok "/api/v\x7bversion:[^/]+\x7d//\x7bresource_id\x7d" :=
  ⟨rfl, rfl, rfl, rfl, rfl⟩

/-- Claim C7: for a handler with non-empty Rules, a nil EmptyResource is
rejected as a configuration error, and a non-nil representative value stamps
every rule returned by the proxy with that value type name. -/
theorem proxy_rules_type_tagging (h : ResourceHandlerImpl) (hr : h.rules ≠ []) :
    (h.emptyResource = none →
      rulesConfigCheck h = Except.error "Rules declared without an EmptyResource value") ∧
    (∀ v : GoValue, h.emptyResource = some v →
      ∀ rule ∈ proxyRules h, rule.resourceType = some v.typeName) := by
  constructor
  · intro hv
    simp [rulesConfigCheck, hr, hv]
  · intro v hv rule hrule
    simp only [proxyRules, List.mem_map] at hrule
    obtain ⟨r0, _, hmap⟩ := hrule
    rw [← hmap]
    simp [reflectTypeOf, hv]

/-- Witness for proxy_rules_type_tagging: the widgets handler with a nil
EmptyResource is rejected, and with its Widget representative every proxied
rule carries the Widget type tag. -/
theorem proxy_rules_type_tagging_witness :
    rulesConfigCheck { widgetsHandler with emptyResource := none } =
      Except.error "Rules declared without an EmptyResource value" ∧
    ∀ rule ∈ proxyRules widgetsHandler, rule.resourceType = some "Widget" := by
  constructor
  · exact (proxy_rules_type_tagging { widgetsHandler with emptyResource := none }
      (by simp [widgetsHandler])).1 rfl
  · exact (proxy_rules_type_tagging widgetsHandler (by simp [widgetsHandler])).2
      { typeName := "Widget" } rfl

/-- Counterexample for claim C8: invoking the server package
BaseResourceHandler CreateResource stub does not return a NotImplemented error
value; it panics, as does its ResourceName stub. -/
theorem server_stub_panics :
    ServerBase.CreateResource (NewContext objRequest) [] "1" =
      StubOutcome.panicked "CreateResource not implemented" ∧
    ServerBase.ReadResource (NewContext objRequest) "42" "1" =
      StubOutcome.panicked "ReadResource not implemented" ∧
    ServerBase.ResourceName = StubOutcome.panicked "ResourceName not implemented" :=
  ⟨rfl, rfl, rfl⟩

/-- Claim C8 as amended: every CRUD stub of the rest package
BaseResourceHandler returns a distinguishable NotImplemented error value
without panicking, and an un-overridden ResourceName is a configuration error
raised by the proxy; the server package BaseResourceHandler stubs instead
panic when invoked. -/
theorem rest_stubs_return_not_implemented :
    (∀ (ctx : RequestContext) (data : Payload) (version : String),
      RestBase.CreateResource ctx data version =
        StubOutcome.value (none, some (Err.notImplemented "CreateResource is not implemented"))) ∧
    (∀ (ctx : RequestContext) (limit : Int) (cursor version : String),
      RestBase.ReadResourceList ctx limit cursor version =
        StubOutcome.value ([], "", some (Err.notImplemented "ReadResourceList not implemented"))) ∧
    (∀ (ctx : RequestContext) (id version : String),
      RestBase.ReadResource ctx id version =
        StubOutcome.value (none, some (Err.notImplemented "ReadResource not implemented"))) ∧
    (∀ (ctx : RequestContext) (id : String) (data : Payload) (version : String),
      RestBase.UpdateResource ctx id data version =
        StubOutcome.value (none, some (Err.notImplemented "UpdateResource not implemented"))) ∧
    (∀ (ctx : RequestContext) (id version : String),
      RestBase.DeleteResource ctx id version =
        StubOutcome.value (none, some (Err.notImplemented "DeleteResource not implemented"))) ∧
    (∀ h : ResourceHandlerImpl, h.resourceName = RestBase.ResourceName →
      proxyResourceName h = Except.error "ResourceHandler must implement ResourceName()") ∧
    (∀ (ctx : RequestContext) (data : Payload) (version : String) (out : Resource × Option Err),
      ServerBase.CreateResource ctx data version ≠ StubOutcome.value out) := by
  refine ⟨fun _ _ _ => rfl, fun _ _ _ _ => rfl, fun _ _ _ => rfl, fun _ _ _ _ => rfl,
    fun _ _ _ => rfl, ?_, ?_⟩
  · intro h hn
    simp [proxyResourceName, hn, RestBase.ResourceName]
  · intro ctx data version out
    simp [ServerBase.CreateResource]

/-- Witness for rest_stubs_return_not_implemented: the CreateResource stub of
the rest package at concrete arguments, and the proxy configuration error on
the nameless handler. -/
theorem rest_stubs_return_not_implemented_witness :
    RestBase.CreateResource (NewContext objRequest) [] "1" =
      StubOutcome.value (none, some (Err.notImplemented "CreateResource is not implemented")) ∧
    proxyResourceName namelessHandler =
      Except.error "ResourceHandler must implement ResourceName()" :=
  ⟨rest_stubs_return_not_implemented.1 (NewContext objRequest) [] "1",
    rest_stubs_return_not_implemented.2.2.2.2.2.1 namelessHandler rfl⟩

end GoRest
